import Mathlib

/-!
Shallow embedding of the Raft consensus core of the `distributed-dns`
repository.  The repository contains two variants of the replication and
election code: the file under `replicated_kv_store` (embedded here with the
suffix `_kv`) and a second, earlier source file (suffix `_p0`).  Definitions
transcribe the Go source; Go `int32` values are modelled as `Int` (the claims
never reach overflow ranges), a Go slice-index panic or nil-pointer
dereference is modelled by an `Option` result (`none`) or by `AEStep.crash`.
-/

/-- Wire type `protos.LogEntry{Term int32, Operation []string}`. -/
structure LogEntry where
  term : Int
  operation : List String
deriving DecidableEq

/-- The node role: `Follower`, `Candidate`, `Leader`. -/
inductive NodeState where
  | Follower
  | Candidate
  | Leader
deriving DecidableEq

/-- Wire type `protos.AppendEntriesMessage`. -/
structure AppendEntriesMessage where
  term : Int
  leaderId : Int
  prevLogIndex : Int
  prevLogTerm : Int
  leaderCommit : Int
  entries : List LogEntry
deriving DecidableEq

/-- Wire type `protos.AppendEntriesResponse`. -/
structure AppendEntriesResponse where
  term : Int
  success : Bool
deriving DecidableEq

/-- Wire type `protos.RequestVoteMessage`. -/
structure RequestVoteMessage where
  term : Int
  candidateId : Int
  lastLogIndex : Int
  lastLogTerm : Int
deriving DecidableEq

/-- Wire type `protos.RequestVoteResponse`. -/
structure RequestVoteResponse where
  term : Int
  voteGranted : Bool
deriving DecidableEq

/-- The effect `ToFollower` has on the election timer: `go node.RunElectionTimer()`
when the node was Leader, `node.electionResetEvent <- true` otherwise. -/
inductive TimerAction where
  | startTimer
  | signalReset
deriving DecidableEq

/-- The `RaftNode` state relevant to the claims.  `nextIndex` and `matchIndex`
are the Go slices indexed by replica id, modelled as functions on `Int`. -/
structure RaftNode where
  state : NodeState
  currentTerm : Int
  votedFor : Int
  log : List LogEntry
  commitIndex : Int
  nextIndex : Int → Int
  matchIndex : Int → Int
  replica_id : Int
  n_replicas : Int

/-- Go slice read `log[i]`: `none` models the out-of-range panic
(negative index or index past the end). -/
def logGet (l : List LogEntry) (i : Int) : Option LogEntry :=
  if 0 ≤ i then l.get? i.toNat else none

/-- The Go loop `for i := lo; i <= hi; i++ { entries = append(entries, &log[i]) }`:
the collected entries `log[lo .. hi]`, or `none` when the loop would panic on an
out-of-range index (the visited indices are contiguous, so when the range is
nonempty the loop is safe exactly when `0 ≤ lo` and `hi < len(log)`). -/
def logSlice (l : List LogEntry) (lo hi : Int) : Option (List LogEntry) :=
  if hi < lo then some []
  else if 0 ≤ lo ∧ hi < (l.length : Int) then
    some ((l.drop lo.toNat).take (hi + 1 - lo).toNat)
  else none

/-- The Go assignment `node.nextIndex[rid] = v`. -/
def setNextIndex (node : RaftNode) (rid v : Int) : RaftNode :=
  { node with nextIndex := fun p => if p = rid then v else node.nextIndex p }

/-- The Go assignment `node.matchIndex[rid] = v`. -/
def setMatchIndex (node : RaftNode) (rid v : Int) : RaftNode :=
  { node with matchIndex := fun p => if p = rid then v else node.matchIndex p }

/-- `func (node *RaftNode) ToFollower(term int32)`: records the previous state,
sets `state = Follower`, `currentTerm = term`, `votedFor = -1`, then either
starts the election timer (previous state Leader) or signals a reset. -/
def ToFollower (node : RaftNode) (term : Int) : RaftNode × TimerAction :=
  ({ node with state := NodeState.Follower, currentTerm := term, votedFor := -1 },
   if node.state = NodeState.Leader then TimerAction.startTimer else TimerAction.signalReset)

/-- The no-op entry appended by `ToLeader`:
`protos.LogEntry{Term: node.currentTerm, Operation: ["NO-OP"]}`. -/
def noOpEntry (term : Int) : LogEntry :=
  { term := term, operation := ["NO-OP"] }

/-- The first half of `ToLeader`: set `state = Leader` and reinitialize
`nextIndex[p] = len(log)`, `matchIndex[p] = 0` for every peer `p` other than
the node itself (the Go loop runs over the replica ids `0 ≤ p < n_replicas`,
skipping `p == node.replica_id`). -/
def toLeaderInit (node : RaftNode) : RaftNode :=
  { node with
    state := NodeState.Leader,
    nextIndex := fun p =>
      if 0 ≤ p ∧ p < node.n_replicas ∧ p ≠ node.replica_id then (node.log.length : Int)
      else node.nextIndex p,
    matchIndex := fun p =>
      if 0 ≤ p ∧ p < node.n_replicas ∧ p ≠ node.replica_id then 0
      else node.matchIndex p }

/-- The node state after `ToLeader` has also appended the no-op entry. -/
def toLeaderNode (node : RaftNode) : RaftNode :=
  let n1 := toLeaderInit node
  { n1 with log := n1.log ++ [noOpEntry n1.currentTerm] }

/-- The `AppendEntriesMessage` composed by `ToLeader` for the no-op replication:
`PrevLogIndex = len(log)-1` and `PrevLogTerm = log[len(log)-1].Term` are taken
*after* the no-op append, and `Entries` holds that same last entry.  The
indexing `log[len(log)-1]` is always in bounds here (the log was just appended
to), so the `getD` default is unreachable. -/
def toLeaderMsg (node : RaftNode) : AppendEntriesMessage :=
  let n2 := toLeaderNode node
  { term := n2.currentTerm,
    leaderId := n2.replica_id,
    prevLogIndex := (n2.log.length : Int) - 1,
    prevLogTerm := ((logGet n2.log ((n2.log.length : Int) - 1)).getD (noOpEntry 0)).term,
    leaderCommit := n2.commitIndex,
    entries := [(logGet n2.log ((n2.log.length : Int) - 1)).getD (noOpEntry 0)] }

/-- The upper index `ToLeader` passes to `LeaderSendAEs`: `int32(len(node.log)-1)`
(after the no-op append). -/
def toLeaderUpper (node : RaftNode) : Int :=
  ((toLeaderNode node).log.length : Int) - 1

/-- The heartbeat message composed by the `replicated_kv_store` variant of
`HeartBeats`.  The source hardcodes `replica_id := 0`, so the *same* message,
built from `nextIndex[0]`, is sent to every peer; `prevLogTerm` is guarded by
`if prevLogIndex >= 0` (but an index past the end of the log still panics,
hence the `Option`). -/
def heartBeatMsg_kv (node : RaftNode) : Option AppendEntriesMessage :=
  let prevLogIndex := node.nextIndex 0 - 1
  let prevLogTerm? : Option Int :=
    if 0 ≤ prevLogIndex then (logGet node.log prevLogIndex).map LogEntry.term
    else some (-1)
  prevLogTerm?.map fun prevLogTerm =>
    { term := node.currentTerm,
      leaderId := node.replica_id,
      prevLogIndex := prevLogIndex,
      prevLogTerm := prevLogTerm,
      leaderCommit := node.commitIndex,
      entries := [] }

/-- The upper index the `replicated_kv_store` `HeartBeats` passes to
`LeaderSendAEs`: `int32(len(node.log) - 1)`. -/
def heartBeatUpper_kv (node : RaftNode) : Int :=
  (node.log.length : Int) - 1

/-- The heartbeat message composed by the second-source variant of `HeartBeats`:
also built from `nextIndex[0]` for every peer, but `PrevLogTerm` reads
`node.log[node.nextIndex[0]-1].Term` without any bound check (`none` models the
panic when that index is out of range). -/
def heartBeatMsg_p0 (node : RaftNode) : Option AppendEntriesMessage :=
  (logGet node.log (node.nextIndex 0 - 1)).map fun e =>
    { term := node.currentTerm,
      leaderId := node.replica_id,
      prevLogIndex := node.nextIndex 0 - 1,
      prevLogTerm := e.term,
      leaderCommit := node.commitIndex,
      entries := [] }

/-- The upper index the second-source `HeartBeats` passes to `LeaderSendAEs`:
`int32(len(node.log))` — one *past* the last log index. -/
def heartBeatUpper_p0 (node : RaftNode) : Int :=
  (node.log.length : Int)

/-- Result of one iteration of `LeaderSendAE` for one RPC response:
return with a status, crash (slice-index panic / nil dereference), or
recurse with a mutated node and a recomputed message. -/
inductive AEStep where
  | done (node : RaftNode) (status : Bool)
  | crash
  | retry (node : RaftNode) (msg : AppendEntriesMessage)

/-- The node carried by a `done` step, if any. -/
def AEStep.doneNode : AEStep → Option RaftNode
  | AEStep.done n _ => some n
  | _ => none

/-- The node carried by a `retry` step, if any. -/
def AEStep.retryNode : AEStep → Option RaftNode
  | AEStep.retry n _ => some n
  | _ => none

/-- The recomputed message carried by a `retry` step, if any. -/
def AEStep.retryMsg : AEStep → Option AppendEntriesMessage
  | AEStep.retry _ m => some m
  | _ => none

/-- One iteration of the `replicated_kv_store` variant of
`func (node *RaftNode) LeaderSendAE(replica_id, upper_index int32, ..., msg) (status bool)`
for a single RPC outcome (`none` = transport error, `some resp` = reply):
- transport error: `return false`, nothing mutated;
- `success == false`, not leader any more: `return false`;
- `success == false`, `response.Term > node.currentTerm`: `ToFollower`, `return false`;
- `success == false` otherwise: `node.nextIndex[replica_id]--`, collect
  `entries = log[msg.PrevLogIndex .. upper_index]`, recompute
  `prevLogIndex = msg.PrevLogIndex - 1` with `prevLogTerm = -1` when negative
  (`log[prevLogIndex].Term` otherwise), and retry with the new message;
- `success == true`: `nextIndex[replica_id] = upper_index + 1`,
  `matchIndex[replica_id] = upper_index`, `return true`. -/
def leaderSendAEStep_kv (node : RaftNode) (replica_id upper_index : Int)
    (msg : AppendEntriesMessage) (response : Option AppendEntriesResponse) : AEStep :=
  match response with
  | none => AEStep.done node false
  | some resp =>
    if resp.success = false then
      if node.state ≠ NodeState.Leader then AEStep.done node false
      else if node.currentTerm < resp.term then AEStep.done (ToFollower node resp.term).1 false
      else
        let node1 := setNextIndex node replica_id (node.nextIndex replica_id - 1)
        match logSlice node1.log msg.prevLogIndex upper_index with
        | none => AEStep.crash
        | some entries =>
          let prevLogIndex := msg.prevLogIndex - 1
          let prevLogTerm? : Option Int :=
            if 0 ≤ prevLogIndex then (logGet node1.log prevLogIndex).map LogEntry.term
            else some (-1)
          match prevLogTerm? with
          | none => AEStep.crash
          | some prevLogTerm =>
            AEStep.retry node1
              { term := node1.currentTerm,
                leaderId := node1.replica_id,
                prevLogIndex := prevLogIndex,
                prevLogTerm := prevLogTerm,
                leaderCommit := node1.commitIndex,
                entries := entries }
    else
      AEStep.done (setMatchIndex (setNextIndex node replica_id (upper_index + 1)) replica_id upper_index) true

/-- One iteration of the second-source variant of `LeaderSendAE` (no status
return value; the `done` status is `false` for its bare `return`s and `true`
on the success branch, it is not observable in that source):
- the transport error is ignored (`response, _ := ...`), so a failed RPC
  dereferences the nil response (`AEStep.crash`);
- on `success == false` the retry recomputes
  `entries = log[msg.PrevLogIndex .. min(len(log), upper_index+1) - 1]` and
  reads `PrevLogTerm = node.log[msg.PrevLogIndex-1].Term` without any bound
  check. -/
def leaderSendAEStep_p0 (node : RaftNode) (replica_id upper_index : Int)
    (msg : AppendEntriesMessage) (response : Option AppendEntriesResponse) : AEStep :=
  match response with
  | none => AEStep.crash
  | some resp =>
    if resp.success = false then
      if node.state ≠ NodeState.Leader then AEStep.done node false
      else if node.currentTerm < resp.term then AEStep.done (ToFollower node resp.term).1 false
      else
        let node1 := setNextIndex node replica_id (node.nextIndex replica_id - 1)
        let tmp := min ((node1.log.length : Int)) (upper_index + 1)
        match logSlice node1.log msg.prevLogIndex (tmp - 1) with
        | none => AEStep.crash
        | some entries =>
          match logGet node1.log (msg.prevLogIndex - 1) with
          | none => AEStep.crash
          | some e =>
            AEStep.retry node1
              { term := node1.currentTerm,
                leaderId := node1.replica_id,
                prevLogIndex := msg.prevLogIndex - 1,
                prevLogTerm := e.term,
                leaderCommit := node1.commitIndex,
                entries := entries }
    else
      AEStep.done (setMatchIndex (setNextIndex node replica_id (upper_index + 1)) replica_id upper_index) true

/-- The full retry loop of the `replicated_kv_store` `LeaderSendAE`, driven by
the list of successive RPC outcomes (one per recursive call); `none` when the
outcome list is exhausted or the code panics. -/
def LeaderSendAE_kv (node : RaftNode) (replica_id upper_index : Int)
    (msg : AppendEntriesMessage) : List (Option AppendEntriesResponse) → Option (RaftNode × Bool)
  | [] => none
  | o :: rest =>
    match leaderSendAEStep_kv node replica_id upper_index msg o with
    | AEStep.done n b => some (n, b)
    | AEStep.crash => none
    | AEStep.retry n m => LeaderSendAE_kv n replica_id upper_index m rest

/-- The per-peer counting loop of the `replicated_kv_store` `LeaderSendAEs`
goroutines, which are serialized by `node.raft_node_mutex`: given the quorum
threshold `m` (the source computes `(node.n_replicas)/2 + 1`) and the per-peer
`LeaderSendAE` results in completion order, the values sent on the
`successful_write` channel, in order.  A success atomically increments the
tally (which starts at 1, counting the leader) and sends `true` exactly when
the new tally equals the threshold; a failure sends `false`. -/
def quorumLoop (m : Int) (successes : Int) : List Bool → List Bool
  | [] => []
  | true :: rest =>
    (if successes + 1 = m then [true] else []) ++ quorumLoop m (successes + 1) rest
  | false :: rest => false :: quorumLoop m (successes) rest

/-- The `successful_write` channel values produced by one round of the
`replicated_kv_store` `LeaderSendAEs`, for per-peer results in completion
order: `quorumLoop` with threshold `n/2 + 1` and initial tally `1`. -/
def leaderSendAEsSignals (n : Int) (results : List Bool) : List Bool :=
  quorumLoop (n / 2 + 1) 1 results

/-- The spec's majority: `⌊N/2⌋ + 1`. -/
def majority (n : Int) : Int := n / 2 + 1

/-- Spec-side count (from the claim's words, for comparison with the code): the
number of replicas, counting the leader, that have stored index `N` — the
leader counts when `len(log) - 1 ≥ N`, a peer when `matchIndex[p] ≥ N`. -/
def ackCount (node : RaftNode) (N : Int) : Nat :=
  (List.range node.n_replicas.toNat).countP fun p =>
    if (p : Int) = node.replica_id then decide (N ≤ (node.log.length : Int) - 1)
    else decide (N ≤ node.matchIndex (p : Int))

/-- Spec-side definition (from the claim's words, for comparison with the
code): the highest index `N` with `N > commitIndex`, `log[N].term = currentTerm`
and a majority of acknowledgements, or `commitIndex` itself when no such `N`
exists. -/
def claimCommitIndex (node : RaftNode) : Int :=
  ((List.range node.log.length).filterMap fun k =>
    if node.commitIndex < (k : Int) ∧
       (logGet node.log (k : Int)).map LogEntry.term = some node.currentTerm ∧
       majority node.n_replicas ≤ (ackCount node (k : Int) : Int)
    then some ((k : Int)) else none).foldl max node.commitIndex

/-- The `RequestVoteMessage` composed by `StartElection`:
`protos.RequestVoteMessage{Term: node.currentTerm, CandidateId: node.replica_id}` —
the remaining proto fields (`lastLogIndex`, `lastLogTerm`) are left at their
Go zero values. -/
def startElectionVoteMsg (node : RaftNode) : RequestVoteMessage :=
  { term := node.currentTerm,
    candidateId := node.replica_id,
    lastLogIndex := 0,
    lastLogTerm := 0 }

/-- The per-response handler inside `StartElection`'s goroutine.  The source
guards the whole response-processing block with `if err != nil` (and puts the
error log in the `else`), so: on a transport error (`none`, where the gRPC
response is nil) it locks, returns silently if no longer Candidate, and
otherwise dereferences the nil response (`response.Term`) — a crash; on a
successful RPC (`some resp`) it takes the `else` branch and calls
`err.Error()` on the nil error — also a crash.  The tally increment and the
`ToLeader()` call below those dereferences are unreachable.  The result is
`some (node', votes', leaderInvoked)` on the one non-crashing path, `none` for
a crash. -/
def startElectionRespond (node : RaftNode) (votes : Int)
    (response : Option RequestVoteResponse) : Option (RaftNode × Int × Bool) :=
  match response with
  | none =>
    if node.state ≠ NodeState.Candidate then some (node, votes, false)
    else none
  | some _ => none

/-- The lock / network events of one `LeaderSendAEs` goroutine body, in program
order: both variants run `node.raft_node_mutex.Lock()`, then `LeaderSendAE`
(which performs one `AppendEntries` RPC plus one per retry), then
`node.raft_node_mutex.Unlock()` (a `defer` in the second source). -/
inductive NodeEvent where
  | lockAcquire
  | rpcCall
  | lockRelease
deriving DecidableEq

/-- The event trace of one `LeaderSendAEs` goroutine body whose inner
`LeaderSendAE` performs `retries` retransmissions after the initial RPC. -/
def leaderSendAEsBody (retries : Nat) : List NodeEvent :=
  NodeEvent.lockAcquire :: (List.replicate (retries + 1) NodeEvent.rpcCall ++ [NodeEvent.lockRelease])

/-- Number of RPC calls in a trace issued while the node lock is held
(`depth` = current hold count). -/
def rpcsWhileLocked : List NodeEvent → Nat → Nat
  | [], _ => 0
  | NodeEvent.lockAcquire :: rest, depth => rpcsWhileLocked rest (depth + 1)
  | NodeEvent.lockRelease :: rest, depth => rpcsWhileLocked rest (depth - 1)
  | NodeEvent.rpcCall :: rest, depth => (if 0 < depth then 1 else 0) + rpcsWhileLocked rest depth

/-! Concrete instances used by counterexamples and witnesses. -/

/-- A leader of term 1 in a 3-replica cluster holding only the term-1 no-op,
with nothing committed yet. -/
def c1node : RaftNode :=
  { state := NodeState.Leader, currentTerm := 1, votedFor := 0,
    log := [noOpEntry 1], commitIndex := -1,
    nextIndex := fun _ => 1, matchIndex := fun _ => 0,
    replica_id := 0, n_replicas := 3 }

/-- The message replicating the no-op of `c1node` to a peer with an empty log. -/
def c1msg : AppendEntriesMessage :=
  { term := 1, leaderId := 0, prevLogIndex := -1, prevLogTerm := -1,
    leaderCommit := -1, entries := [noOpEntry 1] }

/-- The send to peer 1 with upper index 0, answered by one successful reply. -/
def c1run : Option (RaftNode × Bool) :=
  LeaderSendAE_kv c1node 1 0 c1msg [some { term := 1, success := true }]

/-- A candidate of term 1 in a 3-replica cluster with an empty log, about to
win its election. -/
def c2node : RaftNode :=
  { state := NodeState.Candidate, currentTerm := 1, votedFor := 0,
    log := [], commitIndex := -1,
    nextIndex := fun _ => 0, matchIndex := fun _ => 0,
    replica_id := 0, n_replicas := 3 }

/-- A leader of term 2 with a two-entry log and `nextIndex[p] = 1` for all `p`,
mid-backfill: its heartbeat index is in range and a failing reply triggers a
retry. -/
def c2wnode : RaftNode :=
  { state := NodeState.Leader, currentTerm := 2, votedFor := 0,
    log := [noOpEntry 1, noOpEntry 2], commitIndex := 0,
    nextIndex := fun _ => 1, matchIndex := fun _ => 0,
    replica_id := 0, n_replicas := 3 }

/-- An in-flight message for `c2wnode` whose `prevLogIndex` is 1. -/
def c2wmsg : AppendEntriesMessage :=
  { term := 2, leaderId := 0, prevLogIndex := 1, prevLogTerm := 2,
    leaderCommit := 0, entries := [] }

/-- A candidate of term 5 whose two-entry log ends at index 1 with term 5. -/
def c4node : RaftNode :=
  { state := NodeState.Candidate, currentTerm := 5, votedFor := 2,
    log := [noOpEntry 3, noOpEntry 5], commitIndex := -1,
    nextIndex := fun _ => 2, matchIndex := fun _ => 0,
    replica_id := 2, n_replicas := 3 }

/-- A leader of term 2 whose `nextIndex` for peer 1 has been backed off to 0. -/
def c5node : RaftNode :=
  { state := NodeState.Leader, currentTerm := 2, votedFor := 0,
    log := [noOpEntry 1, noOpEntry 2], commitIndex := -1,
    nextIndex := fun _ => 0, matchIndex := fun _ => 0,
    replica_id := 0, n_replicas := 3 }

/-- An in-flight message for `c5node` whose `prevLogIndex` is 1. -/
def c5msg : AppendEntriesMessage :=
  { term := 2, leaderId := 0, prevLogIndex := 1, prevLogTerm := 2,
    leaderCommit := -1, entries := [] }

/-- An in-flight message for `c5node` whose `prevLogIndex` is 0. -/
def c5wmsg : AppendEntriesMessage :=
  { term := 2, leaderId := 0, prevLogIndex := 0, prevLogTerm := 1,
    leaderCommit := -1, entries := [] }

/-- A leader of term 1 with a one-entry log and `nextIndex[p] = 1` for all `p`. -/
def c10node : RaftNode :=
  { state := NodeState.Leader, currentTerm := 1, votedFor := 0,
    log := [noOpEntry 1], commitIndex := -1,
    nextIndex := fun _ => 1, matchIndex := fun _ => 0,
    replica_id := 0, n_replicas := 3 }

/-- The heartbeat message the second-source `HeartBeats` composes for `c10node`. -/
def c10msg : AppendEntriesMessage :=
  { term := 1, leaderId := 0, prevLogIndex := 0, prevLogTerm := 1,
    leaderCommit := -1, entries := [] }

/-! Helper lemmas. -/

/-- Reading the just-appended last entry of a log succeeds. -/
theorem logGet_concat_length (l : List LogEntry) (e : LogEntry) :
    logGet (l ++ [e]) ((l.length : Int)) = some e := by
  unfold logGet
  rw [if_pos (by omega), show ((l.length : Int)).toNat = l.length by omega,
    List.get?_eq_getElem?]
  exact List.getElem?_concat_length l e

/-- An in-range read of the log succeeds. -/
theorem logGet_isSome (l : List LogEntry) (i : Int) (h0 : 0 ≤ i)
    (hi : i < (l.length : Int)) : ∃ e, logGet l i = some e := by
  unfold logGet
  rw [if_pos h0]
  cases hg : l.get? i.toNat with
  | none =>
    rw [List.get?_eq_none] at hg
    omega
  | some e => exact ⟨e, rfl⟩

/-- A slice whose upper bound is in range does not panic. -/
theorem logSlice_isSome (l : List LogEntry) (lo hi : Int) (h0 : 0 ≤ lo)
    (hhi : hi < (l.length : Int)) : ∃ es, logSlice l lo hi = some es := by
  unfold logSlice
  split_ifs with h1 h2
  · exact ⟨[], rfl⟩
  · exact ⟨_, rfl⟩
  · exact absurd ⟨h0, hhi⟩ h2

/-- Reading the log at a negative index panics. -/
theorem logGet_neg (l : List LogEntry) (i : Int) (h : i < 0) : logGet l i = none := by
  unfold logGet
  rw [if_neg (by omega)]

/-- Reduction of the `replicated_kv_store` retry branch: for a `success=false`
reply whose term does not exceed `currentTerm`, received while still leader. -/
theorem leaderSendAEStep_kv_retry (node : RaftNode) (rid U t : Int)
    (msg : AppendEntriesMessage) (hstate : node.state = NodeState.Leader)
    (ht : t ≤ node.currentTerm) :
    leaderSendAEStep_kv node rid U msg (some { term := t, success := false }) =
      match logSlice node.log msg.prevLogIndex U with
      | none => AEStep.crash
      | some entries =>
        match (if 0 ≤ msg.prevLogIndex - 1 then
            (logGet node.log (msg.prevLogIndex - 1)).map LogEntry.term
          else some (-1)) with
        | none => AEStep.crash
        | some prevLogTerm =>
          AEStep.retry (setNextIndex node rid (node.nextIndex rid - 1))
            { term := node.currentTerm, leaderId := node.replica_id,
              prevLogIndex := msg.prevLogIndex - 1, prevLogTerm := prevLogTerm,
              leaderCommit := node.commitIndex, entries := entries } := by
  have h1 : leaderSendAEStep_kv node rid U msg (some { term := t, success := false }) =
      if node.state ≠ NodeState.Leader then AEStep.done node false
      else if node.currentTerm < t then AEStep.done (ToFollower node t).1 false
      else
        match logSlice node.log msg.prevLogIndex U with
        | none => AEStep.crash
        | some entries =>
          match (if 0 ≤ msg.prevLogIndex - 1 then
              (logGet node.log (msg.prevLogIndex - 1)).map LogEntry.term
            else some (-1)) with
          | none => AEStep.crash
          | some prevLogTerm =>
            AEStep.retry (setNextIndex node rid (node.nextIndex rid - 1))
              { term := node.currentTerm, leaderId := node.replica_id,
                prevLogIndex := msg.prevLogIndex - 1, prevLogTerm := prevLogTerm,
                leaderCommit := node.commitIndex, entries := entries } := rfl
  rw [h1, if_neg (by simp [hstate]), if_neg (not_lt.mpr ht)]

/-- Reduction of the second-source retry branch under the same conditions. -/
theorem leaderSendAEStep_p0_retry (node : RaftNode) (rid U t : Int)
    (msg : AppendEntriesMessage) (hstate : node.state = NodeState.Leader)
    (ht : t ≤ node.currentTerm) :
    leaderSendAEStep_p0 node rid U msg (some { term := t, success := false }) =
      match logSlice node.log msg.prevLogIndex (min ((node.log.length : Int)) (U + 1) - 1) with
      | none => AEStep.crash
      | some entries =>
        match logGet node.log (msg.prevLogIndex - 1) with
        | none => AEStep.crash
        | some e =>
          AEStep.retry (setNextIndex node rid (node.nextIndex rid - 1))
            { term := node.currentTerm, leaderId := node.replica_id,
              prevLogIndex := msg.prevLogIndex - 1, prevLogTerm := e.term,
              leaderCommit := node.commitIndex, entries := entries } := by
  have h1 : leaderSendAEStep_p0 node rid U msg (some { term := t, success := false }) =
      if node.state ≠ NodeState.Leader then AEStep.done node false
      else if node.currentTerm < t then AEStep.done (ToFollower node t).1 false
      else
        match logSlice node.log msg.prevLogIndex (min ((node.log.length : Int)) (U + 1) - 1) with
        | none => AEStep.crash
        | some entries =>
          match logGet node.log (msg.prevLogIndex - 1) with
          | none => AEStep.crash
          | some e =>
            AEStep.retry (setNextIndex node rid (node.nextIndex rid - 1))
              { term := node.currentTerm, leaderId := node.replica_id,
                prevLogIndex := msg.prevLogIndex - 1, prevLogTerm := e.term,
                leaderCommit := node.commitIndex, entries := entries } := rfl
  rw [h1, if_neg (by simp [hstate]), if_neg (not_lt.mpr ht)]

/-- The counting loop sends `true` exactly once, at the result whose increment
makes the tally (starting from `s`) reach the threshold `m`, and never
otherwise. -/
theorem quorumLoop_count (m : Int) (results : List Bool) : ∀ s : Int,
    ((quorumLoop m s results).count true : Int) =
      if s + 1 ≤ m ∧ m ≤ s + (results.count true : Int) then 1 else 0 := by
  induction results with
  | nil =>
    intro s
    simp only [quorumLoop, List.count_nil]
    rw [if_neg (by omega)]
    rfl
  | cons b rest ih =>
    intro s
    cases b with
    | false =>
      simp only [quorumLoop, List.count_cons, ih s]
      split_ifs <;> simp_all
    | true =>
      have h := ih (s + 1)
      simp only [quorumLoop, List.count_append, List.count_cons]
      push_cast
      rw [h]
      split_ifs <;> simp_all <;> omega

/-- Consecutive RPC events all count while the lock depth is positive. -/
theorem rpcsWhileLocked_replicate (rest : List NodeEvent) (d : Nat) : ∀ k,
    rpcsWhileLocked (List.replicate k NodeEvent.rpcCall ++ rest) d =
      (if 0 < d then k else 0) + rpcsWhileLocked rest d := by
  intro k
  induction k with
  | zero => simp
  | succ k ih =>
    rw [List.replicate_succ, List.cons_append]
    rw [show rpcsWhileLocked (NodeEvent.rpcCall :: (List.replicate k NodeEvent.rpcCall ++ rest)) d =
          (if 0 < d then 1 else 0) + rpcsWhileLocked (List.replicate k NodeEvent.rpcCall ++ rest) d
        from rfl]
    rw [ih]
    split_ifs <;> omega

/-! Claim theorems. -/

/-- Claim C1, counterexample: in the concrete leader state `c1node`, one
successful `AppendEntries` to peer 1 with upper index 0 updates
`matchIndex[1]` to 0 and, at that point, the commit rule of the claim would
pick `N = 0` (`0 > commitIndex = -1`, `log[0].term = currentTerm`, all three
replicas count as acknowledged); yet the code leaves `commitIndex = -1`. -/
theorem C1_counterexample :
    (c1run.map fun r => r.2) = some true ∧
    (c1run.map fun r => (r.1.matchIndex 1, r.1.nextIndex 1)) = some (0, 1) ∧
    (c1run.map fun r => r.1.commitIndex) = some (-1) ∧
    (c1run.map fun r => claimCommitIndex r.1) = some 0 := by
  refine ⟨rfl, by decide, rfl, by decide⟩

/-- Claim C1, amended: a successful `AppendEntries` to peer `rid` with upper
index `U` sets `nextIndex[rid] = U + 1` and `matchIndex[rid] = U` and changes
nothing else; in particular `commitIndex` is left unchanged — no commit rule
is evaluated at any `matchIndex` update site. -/
theorem C1_amended (node : RaftNode) (rid U t : Int) (msg : AppendEntriesMessage)
    (rest : List (Option AppendEntriesResponse)) :
    LeaderSendAE_kv node rid U msg (some { term := t, success := true } :: rest) =
      some (setMatchIndex (setNextIndex node rid (U + 1)) rid U, true) ∧
    (setMatchIndex (setNextIndex node rid (U + 1)) rid U).commitIndex = node.commitIndex ∧
    (setMatchIndex (setNextIndex node rid (U + 1)) rid U).log = node.log ∧
    (setMatchIndex (setNextIndex node rid (U + 1)) rid U).matchIndex rid = U ∧
    (setMatchIndex (setNextIndex node rid (U + 1)) rid U).nextIndex rid = U + 1 := by
  refine ⟨rfl, rfl, rfl, ?_, ?_⟩ <;> simp [setMatchIndex, setNextIndex]

/-- Claim C2, counterexample: when `c2node` (empty log) becomes leader, the
composed no-op message has `prevLogIndex = 0`, the index of the just-appended
no-op itself, while `nextIndex[1] - 1 = -1`; its entries list is the single
no-op, i.e. `log[prevLogIndex .. U]`, not `log[prevLogIndex+1 .. U]` (which
would be empty since the upper index `U` is also 0). -/
theorem C2_counterexample :
    (toLeaderMsg c2node).prevLogIndex = 0 ∧
    (toLeaderNode c2node).nextIndex 1 - 1 = -1 ∧
    toLeaderUpper c2node = 0 ∧
    (toLeaderMsg c2node).entries = [noOpEntry 1] := by
  refine ⟨rfl, by decide, rfl, by decide⟩

/-- Claim C2, amended: on becoming leader the no-op message carries
`prevLogIndex = len(log) - 1` measured after the no-op append — equal to
`nextIndex[p]`, not `nextIndex[p] - 1`, for every peer `p` — with
`prevLogTerm = currentTerm` (the no-op's own term) and `entries = [the no-op]`,
i.e. `log[prevLogIndex .. U]`; heartbeat messages in both variants are built
from `nextIndex[0] - 1` for every peer and carry empty entries, the
second-source composition panicking outright when `nextIndex[0] - 1` is
negative; the `replicated_kv_store` retry recomputes `prevLogIndex` one lower
with `entries = log[prevLogIndex + 1 .. U]`, the slice from the failing
message's old `prevLogIndex` through `U`; and every composed message carries
`term = currentTerm` and `leaderCommit = commitIndex`. -/
theorem C2_amended (node : RaftNode) (p rid U t : Int) (msg : AppendEntriesMessage)
    (hp : 0 ≤ p ∧ p < node.n_replicas ∧ p ≠ node.replica_id)
    (hhb : node.nextIndex 0 - 1 < (node.log.length : Int)) :
    ((toLeaderMsg node).prevLogIndex = (toLeaderNode node).nextIndex p ∧
     (toLeaderMsg node).prevLogTerm = node.currentTerm ∧
     (toLeaderMsg node).entries = [noOpEntry node.currentTerm] ∧
     (toLeaderMsg node).term = node.currentTerm ∧
     (toLeaderMsg node).leaderCommit = node.commitIndex) ∧
    ((heartBeatMsg_kv node).map AppendEntriesMessage.prevLogIndex = some (node.nextIndex 0 - 1) ∧
     (heartBeatMsg_kv node).map AppendEntriesMessage.term = some node.currentTerm ∧
     (heartBeatMsg_kv node).map AppendEntriesMessage.leaderCommit = some node.commitIndex ∧
     (heartBeatMsg_kv node).map AppendEntriesMessage.entries = some []) ∧
    (0 ≤ node.nextIndex 0 - 1 →
      ((heartBeatMsg_p0 node).map AppendEntriesMessage.prevLogIndex = some (node.nextIndex 0 - 1) ∧
       (heartBeatMsg_p0 node).map AppendEntriesMessage.term = some node.currentTerm ∧
       (heartBeatMsg_p0 node).map AppendEntriesMessage.leaderCommit = some node.commitIndex ∧
       (heartBeatMsg_p0 node).map AppendEntriesMessage.entries = some [])) ∧
    (node.nextIndex 0 - 1 < 0 → heartBeatMsg_p0 node = none) ∧
    (node.state = NodeState.Leader → t ≤ node.currentTerm → 0 ≤ msg.prevLogIndex →
      msg.prevLogIndex ≤ U + 1 → U < (node.log.length : Int) →
      ((leaderSendAEStep_kv node rid U msg (some { term := t, success := false })).retryMsg.map
         AppendEntriesMessage.prevLogIndex = some (msg.prevLogIndex - 1) ∧
       (leaderSendAEStep_kv node rid U msg (some { term := t, success := false })).retryMsg.map
         AppendEntriesMessage.entries = logSlice node.log msg.prevLogIndex U ∧
       (leaderSendAEStep_kv node rid U msg (some { term := t, success := false })).retryMsg.map
         AppendEntriesMessage.term = some node.currentTerm ∧
       (leaderSendAEStep_kv node rid U msg (some { term := t, success := false })).retryMsg.map
         AppendEntriesMessage.leaderCommit = some node.commitIndex)) := by
  have hlog : (toLeaderNode node).log = node.log ++ [noOpEntry node.currentTerm] := rfl
  have hlen : ((toLeaderNode node).log.length : Int) - 1 = (node.log.length : Int) := by
    rw [hlog]
    simp
  have hget : logGet (toLeaderNode node).log (((toLeaderNode node).log.length : Int) - 1) =
      some (noOpEntry node.currentTerm) := by
    rw [hlen, hlog]
    exact logGet_concat_length _ _
  have hhbm : ∀ f : AppendEntriesMessage → Int,
      (heartBeatMsg_kv node).map f =
        some (f { term := node.currentTerm, leaderId := node.replica_id,
                  prevLogIndex := node.nextIndex 0 - 1,
                  prevLogTerm := if 0 ≤ node.nextIndex 0 - 1 then
                      ((logGet node.log (node.nextIndex 0 - 1)).getD (noOpEntry 0)).term
                    else -1,
                  leaderCommit := node.commitIndex, entries := [] }) := by
    intro f
    unfold heartBeatMsg_kv
    by_cases h0 : 0 ≤ node.nextIndex 0 - 1
    · obtain ⟨e, he⟩ := logGet_isSome node.log (node.nextIndex 0 - 1) h0 hhb
      rw [if_pos h0, he]
      simp [he, if_pos h0]
      exact ⟨e.term, by rw [if_pos (show (1 : Int) ≤ node.nextIndex 0 by omega)], rfl⟩
    · rw [if_neg h0]
      simp [if_neg h0]
      exact ⟨-1, by rw [if_neg (show ¬ (1 : Int) ≤ node.nextIndex 0 by omega)], rfl⟩
  refine ⟨⟨?_, ?_, ?_, rfl, rfl⟩, ⟨?_, ?_, ?_, ?_⟩, ?_, ?_, ?_⟩
  · show ((toLeaderNode node).log.length : Int) - 1 = (toLeaderNode node).nextIndex p
    rw [hlen]
    show _ = (if 0 ≤ p ∧ p < node.n_replicas ∧ p ≠ node.replica_id
        then ((node.log.length : Int)) else node.nextIndex p)
    rw [if_pos hp]
  · show ((logGet (toLeaderNode node).log (((toLeaderNode node).log.length : Int) - 1)).getD
        (noOpEntry 0)).term = node.currentTerm
    rw [hget]
    rfl
  · show [(logGet (toLeaderNode node).log (((toLeaderNode node).log.length : Int) - 1)).getD
        (noOpEntry 0)] = [noOpEntry node.currentTerm]
    rw [hget]
    rfl
  · exact hhbm AppendEntriesMessage.prevLogIndex
  · exact hhbm AppendEntriesMessage.term
  · exact hhbm AppendEntriesMessage.leaderCommit
  · unfold heartBeatMsg_kv
    by_cases h0 : 0 ≤ node.nextIndex 0 - 1
    · obtain ⟨e, he⟩ := logGet_isSome node.log (node.nextIndex 0 - 1) h0 hhb
      simp [he, if_pos h0]
      exact ⟨e.term, by rw [if_pos (show (1 : Int) ≤ node.nextIndex 0 by omega)]⟩
    · simp [if_neg h0]
      exact ⟨-1, by rw [if_neg (show ¬ (1 : Int) ≤ node.nextIndex 0 by omega)]⟩
  · intro h0
    obtain ⟨e, he⟩ := logGet_isSome node.log (node.nextIndex 0 - 1) h0 hhb
    refine ⟨?_, ?_, ?_, ?_⟩ <;> simp [heartBeatMsg_p0, he]
  · intro hneg
    unfold heartBeatMsg_p0
    rw [logGet_neg node.log (node.nextIndex 0 - 1) hneg]
    rfl
  · intro hLeader ht hlo hle hU
    obtain ⟨es, hes⟩ := logSlice_isSome node.log msg.prevLogIndex U hlo hU
    rw [leaderSendAEStep_kv_retry node rid U t msg hLeader ht, hes]
    by_cases hz : 0 ≤ msg.prevLogIndex - 1
    · obtain ⟨e, he⟩ := logGet_isSome node.log (msg.prevLogIndex - 1) hz (by omega)
      rw [if_pos hz, he]
      exact ⟨rfl, rfl, rfl, rfl⟩
    · rw [if_neg hz]
      exact ⟨rfl, rfl, rfl, rfl⟩

/-- Claim C2, witness for the amended theorem: `c2wnode` (a leader mid-backfill
with `nextIndex[0] = 1`, so the heartbeat index 0 is in range) with peer 1 and
the retry inputs `rid = 1`, `U = 1`, `t = 2`, `msg = c2wmsg`, whose premises
all hold. -/
theorem C2_witness :
    ((0 ≤ (1 : Int) ∧ (1 : Int) < c2wnode.n_replicas ∧ (1 : Int) ≠ c2wnode.replica_id) ∧
      c2wnode.nextIndex 0 - 1 < (c2wnode.log.length : Int)) ∧
    (((toLeaderMsg c2wnode).prevLogIndex = (toLeaderNode c2wnode).nextIndex 1 ∧
      (toLeaderMsg c2wnode).prevLogTerm = c2wnode.currentTerm ∧
      (toLeaderMsg c2wnode).entries = [noOpEntry c2wnode.currentTerm] ∧
      (toLeaderMsg c2wnode).term = c2wnode.currentTerm ∧
      (toLeaderMsg c2wnode).leaderCommit = c2wnode.commitIndex) ∧
     ((heartBeatMsg_kv c2wnode).map AppendEntriesMessage.prevLogIndex =
        some (c2wnode.nextIndex 0 - 1) ∧
      (heartBeatMsg_kv c2wnode).map AppendEntriesMessage.term = some c2wnode.currentTerm ∧
      (heartBeatMsg_kv c2wnode).map AppendEntriesMessage.leaderCommit =
        some c2wnode.commitIndex ∧
      (heartBeatMsg_kv c2wnode).map AppendEntriesMessage.entries = some []) ∧
     (0 ≤ c2wnode.nextIndex 0 - 1 →
       ((heartBeatMsg_p0 c2wnode).map AppendEntriesMessage.prevLogIndex =
          some (c2wnode.nextIndex 0 - 1) ∧
        (heartBeatMsg_p0 c2wnode).map AppendEntriesMessage.term = some c2wnode.currentTerm ∧
        (heartBeatMsg_p0 c2wnode).map AppendEntriesMessage.leaderCommit =
          some c2wnode.commitIndex ∧
        (heartBeatMsg_p0 c2wnode).map AppendEntriesMessage.entries = some [])) ∧
     (c2wnode.nextIndex 0 - 1 < 0 → heartBeatMsg_p0 c2wnode = none) ∧
     (c2wnode.state = NodeState.Leader → (2 : Int) ≤ c2wnode.currentTerm →
       (0 : Int) ≤ c2wmsg.prevLogIndex → c2wmsg.prevLogIndex ≤ (1 : Int) + 1 →
       (1 : Int) < (c2wnode.log.length : Int) →
       ((leaderSendAEStep_kv c2wnode 1 1 c2wmsg
           (some { term := 2, success := false })).retryMsg.map
          AppendEntriesMessage.prevLogIndex = some (c2wmsg.prevLogIndex - 1) ∧
        (leaderSendAEStep_kv c2wnode 1 1 c2wmsg
           (some { term := 2, success := false })).retryMsg.map
          AppendEntriesMessage.entries = logSlice c2wnode.log c2wmsg.prevLogIndex 1 ∧
        (leaderSendAEStep_kv c2wnode 1 1 c2wmsg
           (some { term := 2, success := false })).retryMsg.map
          AppendEntriesMessage.term = some c2wnode.currentTerm ∧
        (leaderSendAEStep_kv c2wnode 1 1 c2wmsg
           (some { term := 2, success := false })).retryMsg.map
          AppendEntriesMessage.leaderCommit = some c2wnode.commitIndex))) :=
  ⟨⟨by decide, by decide⟩, C2_amended c2wnode 1 1 1 2 c2wmsg (by decide) (by decide)⟩

/-- Claim C3: the vote-response handler in `StartElection` guards the whole
processing block with `if err != nil` instead of `if err == nil`, so a
*successful* RPC reply — in particular a granted current-term vote — is never
processed: it falls into the branch that calls `err.Error()` on the nil error
(a crash, modelled as `none`).  The tally increment and the `toLeader()` call
are unreachable for every successful response. -/
theorem C3_granted_vote_never_tallied (node : RaftNode) (votes : Int)
    (resp : RequestVoteResponse) :
    startElectionRespond node votes (some resp) = none := rfl

/-- Claim C4, counterexample: `c4node` has a two-entry log whose last entry
sits at index 1 with term 5, but the `RequestVote` message it composes carries
`lastLogIndex = 0` and `lastLogTerm = 0`, not the last entry's index and term. -/
theorem C4_counterexample :
    (startElectionVoteMsg c4node).lastLogIndex = 0 ∧
    (startElectionVoteMsg c4node).lastLogTerm = 0 ∧
    (c4node.log.length : Int) - 1 = 1 ∧
    (logGet c4node.log 1).map LogEntry.term = some 5 := by
  refine ⟨rfl, rfl, by decide, by decide⟩

/-- Claim C4, amended: every `RequestVote` message sent by a candidate carries
`term = currentTerm` and `candidateId =` the candidate's own id, while
`lastLogIndex` and `lastLogTerm` are left at their zero values, unrelated to
the candidate's log. -/
theorem C4_amended (node : RaftNode) :
    (startElectionVoteMsg node).term = node.currentTerm ∧
    (startElectionVoteMsg node).candidateId = node.replica_id ∧
    (startElectionVoteMsg node).lastLogIndex = 0 ∧
    (startElectionVoteMsg node).lastLogTerm = 0 :=
  ⟨rfl, rfl, rfl, rfl⟩

/-- Claim C6: in a `LeaderSendAEs` round, the `true` signal is sent on
`successful_write` exactly once — by the per-peer acknowledgement whose
atomic increment makes the tally (which starts at 1, counting the leader)
reach `majority = ⌊N/2⌋ + 1` — and never when the acknowledgements, counting
the leader, stay below the majority.  (The tally starts at 1, so a majority
is *reached* by an increment exactly when `2 ≤ majority` and at least
`majority - 1` peers acknowledge.) -/
theorem C6_write_quorum_signal (node : RaftNode) (results : List Bool) :
    ((leaderSendAEsSignals node.n_replicas results).count true : Int) =
      if 2 ≤ majority node.n_replicas ∧
         majority node.n_replicas ≤ 1 + (results.count true : Int) then 1 else 0 := by
  have h := quorumLoop_count (node.n_replicas / 2 + 1) results 1
  simp only [leaderSendAEsSignals, majority]
  rw [h]
  split_ifs <;> omega

/-- Claim C7: on a transport-level RPC failure the `replicated_kv_store`
variant of `LeaderSendAE` returns `false` to the caller with the node left
untouched, as the claim states; the second-source variant, however, ignores
the error (`response, _ :=`) and dereferences the nil response — a crash, not
a failure report. -/
theorem C7_transport_failure (node : RaftNode) (rid U : Int)
    (msg : AppendEntriesMessage) :
    leaderSendAEStep_kv node rid U msg none = AEStep.done node false ∧
    leaderSendAEStep_p0 node rid U msg none = AEStep.crash :=
  ⟨rfl, rfl⟩

/-- Claim C8: `ToFollower(term)` sets `state = Follower`, `currentTerm = term`
and clears `votedFor` (the `-1` sentinel), leaving the log and commit index
alone; it starts the election timer when the previous role was Leader and
signals a countdown reset otherwise. -/
theorem C8_toFollower (node : RaftNode) (term : Int) :
    (ToFollower node term).1.state = NodeState.Follower ∧
    (ToFollower node term).1.currentTerm = term ∧
    (ToFollower node term).1.votedFor = -1 ∧
    (ToFollower node term).1.log = node.log ∧
    (ToFollower node term).1.commitIndex = node.commitIndex ∧
    (ToFollower node term).2 =
      (if node.state = NodeState.Leader then TimerAction.startTimer
       else TimerAction.signalReset) :=
  ⟨rfl, rfl, rfl, rfl, rfl, rfl⟩

/-- Claim C9, counterexample: the `LeaderSendAEs` goroutine body acquires the
node lock and only then performs the `AppendEntries` RPC, so already with zero
retries one RPC is issued while the lock is held (the claim requires zero). -/
theorem C9_counterexample : rpcsWhileLocked (leaderSendAEsBody 0) 0 = 1 := by decide

/-- Claim C9, amended: in both variants each per-peer `LeaderSendAEs`
goroutine takes the node lock *before* calling `LeaderSendAE` and releases it
after, so the initial `AppendEntries` RPC and every retry — `retries + 1`
network calls in all — are issued while the node lock is held. -/
theorem C9_amended (retries : Nat) :
    rpcsWhileLocked (leaderSendAEsBody retries) 0 = retries + 1 := by
  rw [show rpcsWhileLocked (leaderSendAEsBody retries) 0 =
        rpcsWhileLocked (List.replicate (retries + 1) NodeEvent.rpcCall ++ [NodeEvent.lockRelease]) 1
      from rfl]
  rw [rpcsWhileLocked_replicate]
  simp [rpcsWhileLocked]

/-- Claim C5, counterexample: `c5node` is a leader of term 2 with
`nextIndex[1] = 0`; one `success=false` reply of term 2 (not exceeding
`currentTerm`) makes the retry path decrement `nextIndex[1]` to `-1` — below
0, which the claim forbids. -/
theorem C5_counterexample :
    ((leaderSendAEStep_kv c5node 1 1 c5msg (some { term := 2, success := false })).retryNode.map
      fun n => n.nextIndex 1) = some (-1) := by decide

/-- Claim C5, amended: on `success=false` with response term at most
`currentTerm`, while still leader, the retry decrements `nextIndex[p]`
*unconditionally* — it can go below 0 — and recomputes the message with
`prevLogIndex` one lower; the `replicated_kv_store` variant guards the new
`prevLogTerm` with the `-1` sentinel when the new `prevLogIndex` is below 0,
but the second-source variant reads `log[prevLogIndex-1]` unguarded and
panics in exactly that situation (`msg.prevLogIndex = 0`).  (The hypotheses
`0 ≤ msg.prevLogIndex ≤ U + 1 ≤ len(log)` keep the entry-collection loop of
the failing message in bounds.) -/
theorem C5_amended (node : RaftNode) (rid U t : Int) (msg : AppendEntriesMessage)
    (hLeader : node.state = NodeState.Leader) (ht : t ≤ node.currentTerm)
    (hlo : 0 ≤ msg.prevLogIndex) (hle : msg.prevLogIndex ≤ U + 1)
    (hU : U < (node.log.length : Int)) :
    ((leaderSendAEStep_kv node rid U msg (some { term := t, success := false })).retryNode.map
      fun n => n.nextIndex rid) = some (node.nextIndex rid - 1) ∧
    (leaderSendAEStep_kv node rid U msg (some { term := t, success := false })).retryMsg.map
      AppendEntriesMessage.prevLogIndex = some (msg.prevLogIndex - 1) ∧
    (msg.prevLogIndex = 0 →
      (leaderSendAEStep_kv node rid U msg (some { term := t, success := false })).retryMsg.map
        AppendEntriesMessage.prevLogTerm = some (-1)) ∧
    (msg.prevLogIndex = 0 →
      leaderSendAEStep_p0 node rid U msg (some { term := t, success := false }) = AEStep.crash) := by
  obtain ⟨es, hes⟩ := logSlice_isSome node.log msg.prevLogIndex U hlo hU
  rw [leaderSendAEStep_kv_retry node rid U t msg hLeader ht, hes]
  by_cases hz : 0 ≤ msg.prevLogIndex - 1
  · obtain ⟨e, he⟩ := logGet_isSome node.log (msg.prevLogIndex - 1) hz (by omega)
    rw [if_pos hz, he]
    refine ⟨?_, rfl, ?_, ?_⟩
    · show some ((setNextIndex node rid (node.nextIndex rid - 1)).nextIndex rid) =
        some (node.nextIndex rid - 1)
      simp [setNextIndex]
    · intro h
      exfalso
      omega
    · intro h
      exfalso
      omega
  · rw [if_neg hz]
    refine ⟨?_, rfl, fun _ => rfl, ?_⟩
    · show some ((setNextIndex node rid (node.nextIndex rid - 1)).nextIndex rid) =
        some (node.nextIndex rid - 1)
      simp [setNextIndex]
    · intro h
      obtain ⟨es2, hes2⟩ := logSlice_isSome node.log msg.prevLogIndex
        (min ((node.log.length : Int)) (U + 1) - 1) hlo (by omega)
      rw [leaderSendAEStep_p0_retry node rid U t msg hLeader ht, hes2,
        logGet_neg node.log (msg.prevLogIndex - 1) (by omega)]

/-- Claim C5, witness for the amended theorem: `c5node` with the in-flight
message `c5wmsg` (`prevLogIndex = 0`), peer 1, upper index 1, reply term 2. -/
theorem C5_witness :
    (c5node.state = NodeState.Leader ∧ (2 : Int) ≤ c5node.currentTerm ∧
      0 ≤ c5wmsg.prevLogIndex ∧ c5wmsg.prevLogIndex ≤ (1 : Int) + 1 ∧
      (1 : Int) < (c5node.log.length : Int)) ∧
    (((leaderSendAEStep_kv c5node 1 1 c5wmsg (some { term := 2, success := false })).retryNode.map
        fun n => n.nextIndex 1) = some (c5node.nextIndex 1 - 1) ∧
     (leaderSendAEStep_kv c5node 1 1 c5wmsg (some { term := 2, success := false })).retryMsg.map
        AppendEntriesMessage.prevLogIndex = some (c5wmsg.prevLogIndex - 1) ∧
     (c5wmsg.prevLogIndex = 0 →
       (leaderSendAEStep_kv c5node 1 1 c5wmsg (some { term := 2, success := false })).retryMsg.map
          AppendEntriesMessage.prevLogTerm = some (-1)) ∧
     (c5wmsg.prevLogIndex = 0 →
       leaderSendAEStep_p0 c5node 1 1 c5wmsg (some { term := 2, success := false }) = AEStep.crash)) :=
  ⟨⟨rfl, by decide, by decide, by decide, by decide⟩,
   C5_amended c5node 1 1 2 c5wmsg rfl (by decide) (by decide) (by decide) (by decide)⟩

/-- Claim C10, counterexample: `c10node` is a leader whose log has length 1,
so the invariant requires `matchIndex[p] ≤ 0` and `nextIndex[p] ≤ 1`; but the
second-source `HeartBeats` passes upper index `len(log) = 1`, and a
successful heartbeat to peer 1 then sets `matchIndex[1] = 1` and
`nextIndex[1] = 2`, both past the permitted bounds. -/
theorem C10_counterexample :
    heartBeatMsg_p0 c10node = some c10msg ∧
    heartBeatUpper_p0 c10node = 1 ∧
    (c10node.log.length : Int) - 1 = 0 ∧
    ((leaderSendAEStep_p0 c10node 1 (heartBeatUpper_p0 c10node) c10msg
        (some { term := 1, success := true })).doneNode.map
      fun n => (n.matchIndex 1, n.nextIndex 1)) = some (1, 2) := by
  refine ⟨by decide, rfl, by decide, by decide⟩

/-- Claim C10, amended: the bounds `matchIndex[p] ≤ len(log) - 1` and
`nextIndex[p] ≤ len(log)` are established by becoming leader and preserved by
any successful AppendEntries whose upper index `U` satisfies
`U ≤ len(log) - 1` — which holds for the `replicated_kv_store` heartbeat
round (`U = len(log) - 1`); the second-source heartbeat round instead uses
`U = len(log)` and breaks the invariant (see the counterexample). -/
theorem C10_amended (node : RaftNode) (p rid U t : Int) (msg : AppendEntriesMessage)
    (hp : 0 ≤ p ∧ p < node.n_replicas ∧ p ≠ node.replica_id)
    (hU : U ≤ (node.log.length : Int) - 1) :
    (toLeaderNode node).matchIndex p ≤ ((toLeaderNode node).log.length : Int) - 1 ∧
    (toLeaderNode node).nextIndex p ≤ ((toLeaderNode node).log.length : Int) ∧
    leaderSendAEStep_kv node rid U msg (some { term := t, success := true }) =
      AEStep.done (setMatchIndex (setNextIndex node rid (U + 1)) rid U) true ∧
    (setMatchIndex (setNextIndex node rid (U + 1)) rid U).matchIndex rid ≤
      (node.log.length : Int) - 1 ∧
    (setMatchIndex (setNextIndex node rid (U + 1)) rid U).nextIndex rid ≤
      (node.log.length : Int) ∧
    (setMatchIndex (setNextIndex node rid (U + 1)) rid U).log = node.log ∧
    heartBeatUpper_kv node = (node.log.length : Int) - 1 := by
  have hlen : ((toLeaderNode node).log.length : Int) = (node.log.length : Int) + 1 := by
    show (((toLeaderInit node).log ++ [noOpEntry (toLeaderInit node).currentTerm]).length : Int) = _
    simp
    rfl
  refine ⟨?_, ?_, rfl, ?_, ?_, rfl, rfl⟩
  · show (if 0 ≤ p ∧ p < node.n_replicas ∧ p ≠ node.replica_id then (0 : Int)
      else node.matchIndex p) ≤ _
    rw [if_pos hp, hlen]
    omega
  · show (if 0 ≤ p ∧ p < node.n_replicas ∧ p ≠ node.replica_id then ((node.log.length : Int))
      else node.nextIndex p) ≤ _
    rw [if_pos hp, hlen]
    omega
  · show (if (rid : Int) = rid then U else (setNextIndex node rid (U + 1)).matchIndex rid) ≤ _
    rw [if_pos rfl]
    exact hU
  · show (if (rid : Int) = rid then U + 1 else node.nextIndex rid) ≤ _
    rw [if_pos rfl]
    omega

/-- Claim C10, witness for the amended theorem, at `c10node` with peer 1,
upper index 0. -/
theorem C10_witness :
    ((0 ≤ (1 : Int) ∧ (1 : Int) < c10node.n_replicas ∧ (1 : Int) ≠ c10node.replica_id) ∧
      (0 : Int) ≤ (c10node.log.length : Int) - 1) ∧
    ((toLeaderNode c10node).matchIndex 1 ≤ ((toLeaderNode c10node).log.length : Int) - 1 ∧
     (toLeaderNode c10node).nextIndex 1 ≤ ((toLeaderNode c10node).log.length : Int) ∧
     leaderSendAEStep_kv c10node 1 0 c10msg (some { term := 1, success := true }) =
       AEStep.done (setMatchIndex (setNextIndex c10node 1 (0 + 1)) 1 0) true ∧
     (setMatchIndex (setNextIndex c10node 1 (0 + 1)) 1 0).matchIndex 1 ≤
       (c10node.log.length : Int) - 1 ∧
     (setMatchIndex (setNextIndex c10node 1 (0 + 1)) 1 0).nextIndex 1 ≤
       (c10node.log.length : Int) ∧
     (setMatchIndex (setNextIndex c10node 1 (0 + 1)) 1 0).log = c10node.log ∧
     heartBeatUpper_kv c10node = (c10node.log.length : Int) - 1) :=
  ⟨⟨by decide, by decide⟩, C10_amended c10node 1 1 0 1 c10msg (by decide) (by decide)⟩
